import Mathlib

/-!
Verification development for the atlas-api execution core.

Shallow embedding of the trade-execution pipeline:
`api/execution/trade_executor.py`, `api/execution/scheduler.py`,
`api/execution/trade_logger.py` and `api/execution/signal_generator.py`.

Modelling conventions:
* Python floats are modelled as exact rationals (`ℚ`); every claim settled
  here is tolerance-insensitive, and the source itself documents that floats
  are used only where relative error is tolerable.
* `datetime` values are modelled as rational seconds since the epoch in UTC;
  the scheduler promotes timezone-naive timestamps to UTC before subtracting,
  which makes the promotion the identity on this representation.
* Machine integers (wei amounts) are modelled as `ℤ`; Python ints are
  arbitrary precision, so no wraparound is modelled.
* I/O (RPC calls, transaction submission, receipt polling) is parameterised
  by explicit oracle values (`ChainOutcome`, balances, gas price): the
  embedded functions compute exactly what the source computes from those
  observations.
* ABI byte-encoding is opaque to every claim; calldata is therefore embedded
  at the level the source assembles it — an ordered list of router calls
  (`sendTokens` / `createOrder`) with their fully computed arguments.
-/

/-- Python `int(x)` on a float/rational: truncation toward zero. -/
def pyInt (q : ℚ) : ℤ :=
  if 0 ≤ q then ⌊q⌋ else ⌈q⌉

/-- `TradeExecutor.PRICE_SCALE = 10**30` (trade_executor.py). -/
def PRICE_SCALE : ℚ := 10 ^ 30

/-- `TradeExecutor.USDC_DECIMALS = 10**6` (trade_executor.py). -/
def USDC_DECIMALS : ℚ := 10 ^ 6

/-- `TradeExecutor.CALLBACK_GAS_LIMIT = 750000` (trade_executor.py). -/
def CALLBACK_GAS_LIMIT : ℤ := 750000

/-- `EXECUTION_GAS = 4_000_000` in `_calculate_execution_fee` (trade_executor.py). -/
def EXECUTION_GAS : ℤ := 4000000

/-- `TradeExecutor.WETH_ADDRESS` (trade_executor.py). -/
def WETH_ADDRESS : String := "0x82aF49447D8a07e3bd95BD0d56f35241523fBab1"

/-- `TradeExecutor.GMX_ORDER_VAULT` (trade_executor.py). -/
def GMX_ORDER_VAULT : String := "0x31eF83a530Fde1B38EE9A18093A333D8Bbbc40D5"

/-- `CIRCUIT_BREAKER_THRESHOLD = 5` (scheduler.py). -/
def CIRCUIT_BREAKER_THRESHOLD : Nat := 5

/-- `CIRCUIT_BREAKER_COOLDOWN = 3600` seconds (scheduler.py). -/
def CIRCUIT_BREAKER_COOLDOWN : ℚ := 3600

/-- The configuration fields of `api/config.py` consumed by the execution
core.  `trader_private_key` is `none` when the key is absent (the empty
string in the source, which makes `self.trader` `None`). -/
structure Settings where
  trading_enabled : Bool
  trader_private_key : Option String
  gmx_default_leverage : ℚ
  gmx_slippage_bps : ℤ
  gmx_execution_fee_wei : ℤ
  gmx_collateral_token : String
deriving Repr, DecidableEq

/-- `TradeExecutor._calculate_execution_fee` (trade_executor.py):
`max(int(gas_price * (EXECUTION_GAS + CALLBACK_GAS_LIMIT) * 1.5), min_fee)`
where `min_fee` is the configured floor when positive, else 0. -/
def calculate_execution_fee (s : Settings) (gas_price : ℤ) : ℤ :=
  let total_gas : ℤ := EXECUTION_GAS + CALLBACK_GAS_LIMIT
  let execution_fee : ℤ := pyInt ((gas_price * total_gas : ℤ) * (3 / 2 : ℚ))
  let min_fee : ℤ := if s.gmx_execution_fee_wei > 0 then s.gmx_execution_fee_wei else 0
  max execution_fee min_fee

/-- `TradeExecutor._calculate_size_usd` (trade_executor.py).  The on-chain
reads `_get_vault_tvl` and `_get_vault_token_balance` are passed in as the
observed values `tvl_usd`, `usdc_balance` and `weth_balance` (the source
reads them over RPC; both reads return `0.0` on failure, never a negative
value).  Control flow mirrors the source: zero TVL aborts; a collateral
shortfall caps the size at `usdc_balance * leverage * 0.95`, but a capped
size below $1 aborts; a WETH balance below the execution fee aborts. -/
def calculate_size_usd (s : Settings) (tvl_usd size_pct usdc_balance weth_balance : ℚ)
    (gas_price : ℤ) : ℚ :=
  if tvl_usd ≤ 0 then 0
  else
    let size_usd := tvl_usd * size_pct
    let leverage := max s.gmx_default_leverage 1
    let collateral_needed := size_usd / leverage
    let execution_fee_eth := (calculate_execution_fee s gas_price : ℚ) / 10 ^ 18
    if collateral_needed > usdc_balance then
      let max_size := usdc_balance * leverage * (95 / 100)
      if max_size < 1 then 0
      else if weth_balance < execution_fee_eth then 0
      else max_size
    else if weth_balance < execution_fee_eth then 0
    else size_usd

/-- The slippage fraction `max(int(settings.gmx_slippage_bps), 0) / 10_000`
used by both order builders (trade_executor.py). -/
def slippage_of (s : Settings) : ℚ :=
  ((max s.gmx_slippage_bps 0 : ℤ) : ℚ) / 10000

/-- The `acceptablePrice` computed by `_build_order_calldata` (open orders):
LONG pays up to `price * (1 + slippage)`, SHORT accepts down to
`price * (1 - slippage)`, scaled by `10**30` and truncated by `int(...)`. -/
def acceptable_price_open (s : Settings) (is_long : Bool) (current_price : ℚ) : ℤ :=
  if is_long then pyInt (current_price * (1 + slippage_of s) * PRICE_SCALE)
  else pyInt (current_price * (1 - slippage_of s) * PRICE_SCALE)

/-- The `acceptablePrice` computed by `_build_close_order_calldata`
(close orders): the directions invert — closing a LONG accepts down to
`price * (1 - slippage)`, closing a SHORT pays up to `price * (1 + slippage)`. -/
def acceptable_price_close (s : Settings) (is_long : Bool) (current_price : ℚ) : ℤ :=
  if is_long then pyInt (current_price * (1 - slippage_of s) * PRICE_SCALE)
  else pyInt (current_price * (1 + slippage_of s) * PRICE_SCALE)

/-- The `createOrder` parameter tuple assembled by the order builders
(trade_executor.py).  Fields not consumed by any claim but present in the
source tuple (`swapPath`, `shouldUnwrapNativeToken`, `autoCancel`,
`referralCode`, `dataList`) are constants in the source and are recorded
here by their constant values where numeric, or omitted where they are
empty-list/zero-bytes placeholders. -/
structure OrderParams where
  receiver : String
  cancellationReceiver : String
  callbackContract : String
  uiFeeReceiver : String
  market : String
  initialCollateralToken : String
  sizeDeltaUsd : ℤ
  initialCollateralDeltaAmount : ℤ
  triggerPrice : ℤ
  acceptablePrice : ℤ
  executionFee : ℤ
  callbackGasLimit : ℤ
  minOutputAmount : ℤ
  validFromTime : ℤ
  orderType : Nat
  decreasePositionSwapType : Nat
  isLong : Bool
deriving Repr, DecidableEq

/-- One entry of the `multicall(bytes[])` payload: the source ABI-encodes
each entry; the encoding itself is injective and opaque to every claim, so
the calldata is embedded as the ordered list of calls with their computed
arguments. -/
inductive RouterCall where
  | sendTokens (token receiver : String) (amount : ℤ)
  | createOrder (params : OrderParams)
deriving Repr, DecidableEq

/-- The collateral amount of an open order (trade_executor.py):
`int(size_usd / leverage * USDC_DECIMALS)` with leverage floored at 1. -/
def collateral_amount_of (s : Settings) (size_usd : ℚ) : ℤ :=
  pyInt (size_usd / max s.gmx_default_leverage 1 * USDC_DECIMALS)

/-- The `createOrder` parameter tuple of `_build_order_calldata` (open,
MarketIncrease orders; trade_executor.py lines 412-439). -/
def open_order_params (s : Settings) (vault_address market_address : String)
    (size_usd : ℚ) (is_long : Bool) (current_price : ℚ) (gas_price : ℤ) : OrderParams :=
  { receiver := vault_address
    cancellationReceiver := "0x0000000000000000000000000000000000000000"
    callbackContract := "0x10Ae41dF7781940Ff22b596B9FdEDd88b3A08feC"
    uiFeeReceiver := "0x0000000000000000000000000000000000000000"
    market := market_address
    initialCollateralToken := s.gmx_collateral_token
    sizeDeltaUsd := pyInt (size_usd * PRICE_SCALE)
    initialCollateralDeltaAmount := collateral_amount_of s size_usd
    triggerPrice := 0
    acceptablePrice := acceptable_price_open s is_long current_price
    executionFee := calculate_execution_fee s gas_price
    callbackGasLimit := CALLBACK_GAS_LIMIT
    minOutputAmount := 0
    validFromTime := 0
    orderType := 2
    decreasePositionSwapType := 0
    isLong := is_long }

/-- The `createOrder` parameter tuple of `_build_close_order_calldata`
(close, MarketDecrease orders; trade_executor.py lines 547-574). -/
def close_order_params (s : Settings) (vault_address market_address : String)
    (size_usd : ℚ) (is_long : Bool) (current_price : ℚ) (gas_price : ℤ) : OrderParams :=
  { receiver := vault_address
    cancellationReceiver := "0x0000000000000000000000000000000000000000"
    callbackContract := "0x10Ae41dF7781940Ff22b596B9FdEDd88b3A08feC"
    uiFeeReceiver := "0x0000000000000000000000000000000000000000"
    market := market_address
    initialCollateralToken := s.gmx_collateral_token
    sizeDeltaUsd := pyInt (size_usd * PRICE_SCALE)
    initialCollateralDeltaAmount := 0
    triggerPrice := 0
    acceptablePrice := acceptable_price_close s is_long current_price
    executionFee := calculate_execution_fee s gas_price
    callbackGasLimit := CALLBACK_GAS_LIMIT
    minOutputAmount := 0
    validFromTime := 0
    orderType := 4
    decreasePositionSwapType := 0
    isLong := is_long }

/-- `TradeExecutor._build_order_calldata` (trade_executor.py): the
MarketIncrease (open) order.  Returns the multicall payload list and the
execution fee, or the `ValueError` message raised for a missing price. -/
def build_order_calldata (s : Settings) (vault_address market_address : String)
    (size_usd : ℚ) (is_long : Bool) (current_price : ℚ) (gas_price : ℤ) :
    Except String (List RouterCall × ℤ) :=
  let execution_fee := calculate_execution_fee s gas_price
  let collateral_amount := collateral_amount_of s size_usd
  if current_price ≤ 0 then
    Except.error "Missing current price for acceptablePrice calc"
  else
    Except.ok
      ([RouterCall.sendTokens WETH_ADDRESS GMX_ORDER_VAULT execution_fee,
        RouterCall.sendTokens s.gmx_collateral_token GMX_ORDER_VAULT collateral_amount,
        RouterCall.createOrder (open_order_params s vault_address market_address
          size_usd is_long current_price gas_price)], execution_fee)

/-- `TradeExecutor._build_close_order_calldata` (trade_executor.py): the
MarketDecrease (close) order.  The collateral `sendTokens` step is omitted
and `initialCollateralDeltaAmount` is 0. -/
def build_close_order_calldata (s : Settings) (vault_address market_address : String)
    (size_usd : ℚ) (is_long : Bool) (current_price : ℚ) (gas_price : ℤ) :
    Except String (List RouterCall × ℤ) :=
  let execution_fee := calculate_execution_fee s gas_price
  if current_price ≤ 0 then
    Except.error "Missing current price for acceptablePrice calc"
  else
    Except.ok
      ([RouterCall.sendTokens WETH_ADDRESS GMX_ORDER_VAULT execution_fee,
        RouterCall.createOrder (close_order_params s vault_address market_address
          size_usd is_long current_price gas_price)], execution_fee)

/-- Projection: the `createOrder` parameters of a builder result, if any. -/
def orderParamsOf (x : Except String (List RouterCall × ℤ)) : Option OrderParams :=
  match x with
  | Except.error _ => none
  | Except.ok (calls, _) =>
    calls.reverse.findSome? fun c =>
      match c with
      | RouterCall.createOrder p => some p
      | _ => none

/-- Projection: the `acceptablePrice` of a builder result, if any. -/
def acceptablePriceOf (x : Except String (List RouterCall × ℤ)) : Option ℤ :=
  (orderParamsOf x).map OrderParams.acceptablePrice

/-- Modelled from the spec: `api/execution/models.py` is not in the source
tree (only its importers are).  Spec §3 **Signal**: "direction ∈ {-1, 0, +1},
confidence ∈ [0,1], size_pct ∈ [0,1], current_price, optional stop/take
levels, asset, timeframe, originating strategy slug"; the constructor keyword
arguments visible at every call site (signal_generator.py, tests) fix the
field names. -/
structure Signal where
  direction : ℤ
  confidence : ℚ
  size_pct : ℚ
  reason : String := ""
  timestamp : Option ℚ := none
  current_price : ℚ
  stop_loss : Option ℚ := none
  take_profit : Option ℚ := none
  strategy_slug : String := ""
  asset : String
  timeframe : String := "1H"
deriving Repr, DecidableEq

/-- Modelled from the spec: `Signal.is_actionable` lives in the missing
`api/execution/models.py`.  Spec §3: "A signal is *actionable* iff
direction ≠ 0" (the e2e tests compute it the same way). -/
def Signal.is_actionable (sig : Signal) : Bool :=
  decide (sig.direction ≠ 0)

/-- Modelled from the spec: `Position` lives in the missing
`api/execution/models.py`.  Spec §3 **Position**: "market identifier, asset
symbol, signed size (positive = long, negative = short), entry_price,
current_price, unrealized_pnl, leverage"; the scheduler consumes `asset`,
`size` and `current_price`. -/
structure Position where
  market_id : String := ""
  asset : String
  size : ℚ
  entry_price : ℚ := 0
  current_price : ℚ
  unrealized_pnl : ℚ := 0
  leverage : ℚ := 0
deriving Repr, DecidableEq

/-- `TradeResult` dataclass (trade_executor.py). -/
structure TradeResult where
  success : Bool
  tx_hash : Option String
  error : Option String
  gas_used : Nat
  timestamp : ℚ
  direction : ℤ
  asset : String
  size : ℚ
  entry_price : ℚ
deriving Repr, DecidableEq

/-- The observable outcome of submitting a transaction and polling for its
receipt (`_execute_via_vault` + `_wait_for_confirmation`): either a
transaction hash with the receipt's `gasUsed`, or the message of the
exception raised anywhere in the submission path (gas-estimate revert,
transaction revert, confirmation timeout, RPC failure, unknown market). -/
inductive ChainOutcome where
  | ok (txHash : String) (gasUsed : Nat)
  | err (msg : String)
deriving Repr, DecidableEq

/-- Per-vault circuit-breaker entry
`{failures: int, tripped_at: datetime | None}` (scheduler.py). -/
structure CBState where
  failures : Nat
  tripped_at : Option ℚ
deriving Repr, DecidableEq

/-- `ExecutionScheduler._is_circuit_broken` (scheduler.py).  Returns the
boolean answer together with the updated breaker entry for the vault: the
source pops the entry when the cooldown has expired. -/
def is_circuit_broken (cb : Option CBState) (now : ℚ) : Bool × Option CBState :=
  match cb with
  | none => (false, none)
  | some st =>
    if st.failures < CIRCUIT_BREAKER_THRESHOLD then (false, some st)
    else
      match st.tripped_at with
      | some t =>
        if now - t ≥ CIRCUIT_BREAKER_COOLDOWN then (false, none)
        else (true, some st)
      | none => (true, some st)

/-- `ExecutionScheduler._record_trade_result` (scheduler.py): success clears
the entry; failure increments `failures` and stamps `tripped_at` the first
time the count reaches the threshold. -/
def record_trade_result (cb : Option CBState) (success : Bool) (now : ℚ) : Option CBState :=
  if success then none
  else
    let st := cb.getD { failures := 0, tripped_at := none }
    let f := st.failures + 1
    let tripped :=
      if CIRCUIT_BREAKER_THRESHOLD ≤ f ∧ st.tripped_at = none then some now
      else st.tripped_at
    some { failures := f, tripped_at := tripped }

/-- The consecutive-failure count of a breaker entry (0 when absent). -/
def failuresOf (cb : Option CBState) : Nat :=
  (cb.getD { failures := 0, tripped_at := none }).failures

/-- `ExecutionScheduler._net_position_direction` (scheduler.py). -/
def net_position_direction (positions : List Position) : ℤ :=
  match positions with
  | [] => 0
  | _ =>
    let net_size := (positions.map Position.size).sum
    if net_size > 0 then 1 else if net_size < 0 then -1 else 0

/-- The failed `TradeResult` shape shared by every failure path of
`TradeExecutor.execute_trade` (trade_executor.py): no hash, zero gas, zero
size, the signal's direction and current price. -/
def failedTrade (sig : Signal) (msg : String) (now : ℚ) : TradeResult :=
  { success := false
    tx_hash := none
    error := some msg
    gas_used := 0
    timestamp := now
    direction := sig.direction
    asset := sig.asset
    size := 0
    entry_price := sig.current_price }

/-- `TradeExecutor.execute_trade` (trade_executor.py).  On-chain reads are
passed in as observed values: `market_address` is `none` when
`get_market_address_for_asset` raises (unknown asset), `preflight_ok` is the
outcome of `_validate_vault_assets` (false = the long-token `ValueError`),
`tvl_usd` / `usdc_balance` / `weth_balance` feed `_calculate_size_usd`, and
`chain` is the submission/confirmation outcome.  Every exception inside the
`try` block is converted to a failed `TradeResult` carrying its message. -/
def execute_trade (s : Settings) (sig : Signal) (vault_address : String)
    (size_usd_override : Option ℚ) (market_address : Option String)
    (preflight_ok : Bool) (tvl_usd usdc_balance weth_balance : ℚ)
    (gas_price : ℤ) (chain : ChainOutcome) (now : ℚ) : TradeResult :=
  if ¬ sig.is_actionable then
    { success := true, tx_hash := none, error := some "Signal not actionable"
      gas_used := 0, timestamp := now, direction := 0, asset := sig.asset
      size := 0, entry_price := sig.current_price }
  else if ¬ s.trading_enabled then
    { success := false, tx_hash := none, error := some "Trading disabled"
      gas_used := 0, timestamp := now, direction := sig.direction
      asset := sig.asset, size := 0, entry_price := sig.current_price }
  else if s.trader_private_key = none then
    { success := false, tx_hash := none, error := some "Missing trader private key"
      gas_used := 0, timestamp := now, direction := sig.direction
      asset := sig.asset, size := 0, entry_price := sig.current_price }
  else
    match market_address with
    | none => failedTrade sig ("Missing GMX market address for " ++ sig.asset) now
    | some market =>
      if ¬ preflight_ok then
        failedTrade sig ("Vault " ++ vault_address ++ " is missing the market's long token") now
      else
        let size_usd :=
          match size_usd_override with
          | some o => if o > 0 then o
                      else calculate_size_usd s tvl_usd sig.size_pct usdc_balance weth_balance gas_price
          | none => calculate_size_usd s tvl_usd sig.size_pct usdc_balance weth_balance gas_price
        if size_usd ≤ 0 then failedTrade sig "Computed trade size is zero" now
        else
          match build_order_calldata s vault_address market size_usd
              (decide (sig.direction > 0)) sig.current_price gas_price with
          | Except.error msg => failedTrade sig msg now
          | Except.ok _ =>
            match chain with
            | ChainOutcome.err msg => failedTrade sig msg now
            | ChainOutcome.ok tx gas =>
              { success := true, tx_hash := some tx, error := none
                gas_used := gas, timestamp := now, direction := sig.direction
                asset := sig.asset, size := size_usd, entry_price := sig.current_price }

/-- `ExecutionScheduler._close_positions` (scheduler.py).  `market_address`
is the observed result of `get_market_address_for_asset` (`none` = raises),
`chain` the submission/confirmation outcome; any exception in the `try`
block yields a failed `TradeResult` with `direction=0` ("Closing = neutral"
per the source comment) and `size=0`. -/
def close_positions (s : Settings) (asset : String)
    (positions : List Position) (current_price : ℚ) (vault_address : String)
    (market_address : Option String) (gas_price : ℤ) (chain : ChainOutcome)
    (now : ℚ) : Option TradeResult :=
  match positions with
  | [] => none
  | p0 :: _ =>
    let total_size_usd := (positions.map (fun p => |p.size * p.current_price|)).sum
    if total_size_usd ≤ 0 then none
    else
      let closeFail : String → Option TradeResult := fun msg =>
        some { success := false, tx_hash := none, error := some msg, gas_used := 0
               timestamp := now, direction := 0, asset := asset, size := 0
               entry_price := current_price }
      match market_address with
      | none => closeFail ("Missing GMX market address for " ++ asset)
      | some market =>
        match build_close_order_calldata s vault_address market total_size_usd
            (decide (p0.size > 0)) current_price gas_price with
        | Except.error msg => closeFail msg
        | Except.ok _ =>
          match chain with
          | ChainOutcome.err msg => closeFail msg
          | ChainOutcome.ok tx gas =>
            some { success := true, tx_hash := some tx, error := none
                   gas_used := gas, timestamp := now, direction := 0
                   asset := asset, size := total_size_usd
                   entry_price := current_price }

/-- The persisted `Trade` row built by `log_trade` (trade_logger.py);
fields set to SQL `NULL` at insert (`exit_price`, `exit_timestamp`, `pnl`,
`pnl_pct`) are omitted. -/
structure Trade where
  vault_address : String
  strategy_id : ℤ
  trade_num : Nat
  timestamp : ℚ
  side : String
  asset : String
  size : ℚ
  entry_price : ℚ
  result : String
  tx_hash : Option String
  error_message : Option String
deriving Repr, DecidableEq

/-- `log_trade` (trade_logger.py): `trade_num` is the vault's existing trade
count plus one; `side` is `"LONG" if result.direction == 1 else "SHORT"`;
`result` is `"success"`/`"failed"`; the error message is kept only on
failure. -/
def log_trade (vault_address : String) (strategy_id : ℤ) (prior_count : Nat)
    (r : TradeResult) : Trade :=
  { vault_address := vault_address.toLower
    strategy_id := strategy_id
    trade_num := prior_count + 1
    timestamp := r.timestamp
    side := if r.direction = 1 then "LONG" else "SHORT"
    asset := r.asset
    size := r.size
    entry_price := r.entry_price
    result := if r.success then "success" else "failed"
    tx_hash := r.tx_hash
    error_message := if r.success then none else r.error }

/-- The `Vault` registry row fields the main loop reads or writes
(`api/models/database.py`; the loop touches `address`, `strategy_id`,
`status`, `check_interval` and `last_checked_at`). -/
structure VaultRow where
  address : String
  strategy_id : ℤ
  status : String
  check_interval : Option String
  last_checked_at : Option ℚ
deriving Repr, DecidableEq

/-- `INTERVAL_SECONDS.get(token, 60)` (scheduler.py): the interval mapping
with default 60 for unknown tokens. -/
def interval_seconds (token : String) : ℚ :=
  if token = "1m" then 60
  else if token = "5m" then 300
  else if token = "15m" then 900
  else if token = "1H" then 3600
  else if token = "1h" then 3600
  else if token = "4H" then 14400
  else if token = "4h" then 14400
  else 60

/-- `ExecutionScheduler._should_check` (scheduler.py): a never-checked vault
is always due; otherwise the vault is due when the elapsed time since
`last_checked_at` reaches the interval of its `check_interval` token
(`vault.check_interval or "1m"`; a missing/empty token falls back to "1m",
and an unrecognised token maps to 60 seconds — both paths agree here).
Timestamps are UTC seconds; the source's naive-to-UTC promotion is the
identity on this representation. -/
def should_check (v : VaultRow) (now : ℚ) : Bool :=
  match v.last_checked_at with
  | none => true
  | some last => decide (now - last ≥ interval_seconds (v.check_interval.getD "1m"))

/-- The externally visible effects of one `_process_vault` tick, in program
order: the unconditional `SignalLog` insert, each close/open order that is
built and submitted, and each `Trade` row persisted by `log_trade`. -/
inductive Event where
  | signalLogged (direction : ℤ)
  | closeAttempted
  | openAttempted
  | tradeLogged (t : Trade)
deriving Repr, DecidableEq

/-- The per-tick inputs of `_process_vault` that the source obtains from
collaborators: the wall clock, whether `load_strategy_by_vault` returned a
strategy, the generated `Signal`, the vault's on-chain positions for the
signal's asset, the market-address lookup, the `_validate_vault_assets`
outcome, the TVL and token balances, the gas price, the chain outcomes of
the close and open submissions, and the vault's persisted trade count. -/
structure TickEnv where
  now : ℚ
  strategy_loaded : Bool
  signal : Signal
  positions : List Position
  market_address : Option String
  preflight_ok : Bool
  tvl_usd : ℚ
  usdc_balance : ℚ
  weth_balance : ℚ
  gas_price : ℤ
  close_chain : ChainOutcome
  open_chain : ChainOutcome
  prior_trades : Nat
deriving Repr

/-- The open-order phase at the end of `_process_vault` (scheduler.py, step 4):
when an open is needed, run `execute_trade`, persist the outcome via
`log_trade` and update the circuit breaker. -/
def run_open_phase (s : Settings) (cb : Option CBState) (v : VaultRow) (env : TickEnv)
    (evs : List Event) (needs_open : Bool) (trade_count : Nat) :
    List Event × Option CBState :=
  if needs_open then
    let r := execute_trade s env.signal v.address none env.market_address
      env.preflight_ok env.tvl_usd env.usdc_balance env.weth_balance
      env.gas_price env.open_chain env.now
    (evs ++ [Event.openAttempted,
             Event.tradeLogged (log_trade v.address v.strategy_id trade_count r)],
     record_trade_result cb r.success env.now)
  else (evs, cb)

/-- `ExecutionScheduler._process_vault` (scheduler.py): circuit-breaker
gate, strategy load, signal logging, position-aware decision
(close / skip duplicate / flip / open), close execution with
abort-on-failure, then the open phase.  Returns the emitted effects in
order and the vault's updated circuit-breaker entry. -/
def process_vault (s : Settings) (cb : Option CBState) (v : VaultRow) (env : TickEnv) :
    List Event × Option CBState :=
  let checked := is_circuit_broken cb env.now
  if checked.1 then ([], checked.2)
  else if ¬ env.strategy_loaded then ([], checked.2)
  else
    let sig := env.signal
    let current_direction := net_position_direction env.positions
    let desired_direction := sig.direction
    let needs_close :=
      if desired_direction = 0 then decide (current_direction ≠ 0)
      else if desired_direction = current_direction then false
      else decide (current_direction ≠ 0)
    let needs_open :=
      if desired_direction = 0 then false
      else if desired_direction = current_direction then false
      else sig.is_actionable
    let base := [Event.signalLogged sig.direction]
    let close_result :=
      if needs_close then
        close_positions s sig.asset env.positions sig.current_price v.address
          env.market_address env.gas_price env.close_chain env.now
      else none
    match close_result with
    | some r =>
      let evs := base ++ [Event.closeAttempted,
        Event.tradeLogged (log_trade v.address v.strategy_id env.prior_trades r)]
      let cb2 := record_trade_result checked.2 r.success env.now
      if r.success then
        run_open_phase s cb2 v env evs needs_open (env.prior_trades + 1)
      else (evs, cb2)
    | none => run_open_phase s checked.2 v env base needs_open env.prior_trades

/-- One vault's slice of `ExecutionScheduler._main_loop` (scheduler.py):
interval gating via `_should_check`, then `_process_vault`, then
`last_checked_at = now` — the update runs whenever the vault was visited,
regardless of the tick's outcome, and touches no other column. -/
def main_loop_vault (s : Settings) (cb : Option CBState) (v : VaultRow) (env : TickEnv) :
    VaultRow × List Event × Option CBState :=
  if should_check v env.now then
    let r := process_vault s cb v env
    ({ v with last_checked_at := some env.now }, r.1, r.2)
  else (v, [], cb)

/-- Strategy metadata consumed by `SignalGenerator` (strategy_loader.py's
`LoadedStrategy`: slug, asset, timeframe, risk percentages). -/
structure StrategyMeta where
  slug : String
  asset : String
  timeframe : String
  stop_loss_pct : ℚ
  take_profit_pct : ℚ
deriving Repr, DecidableEq

/-- The observed market-data fetch of `generate_signal`
(signal_generator.py): either the current price with the number of candles
returned, or an exception message from `get_current_price`/`get_candles`. -/
inductive MarketFetch where
  | ok (price : ℚ) (candle_count : Nat)
  | err (msg : String)
deriving Repr, DecidableEq

/-- `SignalGenerator._neutral_signal` (signal_generator.py). -/
def neutral_signal (strat : StrategyMeta) (price : ℚ) (reason : String) : Signal :=
  { direction := 0
    confidence := 0
    size_pct := 0
    reason := reason
    current_price := price
    strategy_slug := strat.slug
    asset := strat.asset
    timeframe := strat.timeframe }

/-- `SignalGenerator._calculate_confidence` (signal_generator.py): fraction
of the last five strategy outputs agreeing with the latest, clamped to
[0, 1]; 0.5 when fewer than five outputs; 0 when the latest is 0. -/
def calculate_confidence (signals : List ℤ) : ℚ :=
  if signals.length < 5 then 1 / 2
  else
    let recent := signals.drop (signals.length - 5)
    let latest := recent.getLast?.getD 0
    if latest = 0 then 0
    else
      let agreeing := (recent.filter (fun x => x = latest)).length
      min (max ((agreeing : ℚ) / (recent.length : ℚ)) 0) 1

/-- `SignalGenerator._calculate_size` (signal_generator.py): 0 for a neutral
direction, otherwise `base_size * confidence` clamped into [0.1, 1.0]. -/
def calculate_size (direction : ℤ) (confidence : ℚ) : ℚ :=
  if direction = 0 then 0
  else
    let base_size : ℚ := 1
    let size := base_size * confidence
    max (1 / 10) (min size 1)

/-- `SignalGenerator._calculate_risk_levels` (signal_generator.py), without
the final `round(_, 2)` display rounding (no claim concerns the cent
rounding of stop/take levels). -/
def calculate_risk_levels (strat : StrategyMeta) (direction : ℤ) (price : ℚ) :
    Option ℚ × Option ℚ :=
  if direction = 0 ∨ price = 0 then (none, none)
  else if direction = 1 then
    (some (price * (1 - strat.stop_loss_pct)), some (price * (1 + strat.take_profit_pct)))
  else
    (some (price * (1 + strat.stop_loss_pct)), some (price * (1 - strat.take_profit_pct)))

/-- `SignalGenerator._generate_reason` (signal_generator.py). -/
def generate_reason (strat : StrategyMeta) (direction : ℤ) : String :=
  if direction = 0 then "No signal generated"
  else
    let direction_str := if direction = 1 then "LONG" else "SHORT"
    direction_str ++ " signal from " ++ strat.slug ++ " on " ++ strat.asset
      ++ " (" ++ strat.timeframe ++ ")"

/-- `SignalGenerator.generate_signal` (signal_generator.py).  `fetch` is the
observed market-data outcome; `strategy_output` is the sequence returned by
the strategy's `generate_signals`, with `none` standing for a raised
exception (an empty sequence also raises, via `signals[-1]`).  A
non-`{-1,0,1}` latest value is coerced to 0 before sizing. -/
def generate_signal (strat : StrategyMeta) (fetch : MarketFetch)
    (strategy_output : Option (List ℤ)) : Signal :=
  match fetch with
  | MarketFetch.err msg => neutral_signal strat 0 ("Market data error: " ++ msg)
  | MarketFetch.ok current_price candle_count =>
    if current_price ≤ 0 then neutral_signal strat current_price "Missing market price"
    else if candle_count < 10 then neutral_signal strat current_price "Insufficient data"
    else
      match strategy_output with
      | none => neutral_signal strat current_price "Strategy error"
      | some [] => neutral_signal strat current_price "Strategy error"
      | some signals =>
        let latest := signals.getLast?.getD 0
        let latest_signal := if latest = -1 ∨ latest = 0 ∨ latest = 1 then latest else 0
        let direction := latest_signal
        let confidence := calculate_confidence signals
        let size_pct := calculate_size direction confidence
        let levels := calculate_risk_levels strat direction current_price
        { direction := direction
          confidence := confidence
          size_pct := size_pct
          reason := generate_reason strat direction
          current_price := current_price
          stop_loss := levels.1
          take_profit := levels.2
          strategy_slug := strat.slug
          asset := strat.asset
          timeframe := strat.timeframe }

/-- A concrete configuration mirroring the defaults of `api/config.py`
(leverage 5, slippage 50 bps, no fee floor) with trading enabled and a
signing key present; used by concrete evaluations below. -/
def sampleSettings : Settings :=
  { trading_enabled := true
    trader_private_key := some "0xkey"
    gmx_default_leverage := 5
    gmx_slippage_bps := 50
    gmx_execution_fee_wei := 0
    gmx_collateral_token := "0xUSDC" }

/-- `sampleSettings` with the global trading switch off. -/
def disabledSettings : Settings :=
  { sampleSettings with trading_enabled := false }

/-- `sampleSettings` with no signing key configured. -/
def keylessSettings : Settings :=
  { sampleSettings with trader_private_key := none }

/-- A concrete actionable LONG signal. -/
def longSignal : Signal :=
  { direction := 1, confidence := 9 / 10, size_pct := 1
    current_price := 100, asset := "BTC" }

/-- A concrete actionable SHORT signal. -/
def shortSignal : Signal :=
  { longSignal with direction := -1 }

/-- A concrete existing LONG position of notional $100. -/
def longPosition : Position :=
  { asset := "BTC", size := 1, entry_price := 99, current_price := 100 }

/-- A concrete vault registry row. -/
def sampleVault : VaultRow :=
  { address := "0xVault", strategy_id := 7, status := "active"
    check_interval := some "5m", last_checked_at := some 0 }

/-- A concrete tick environment at a chosen fire time: LONG signal, flat
book, resolvable market, passing pre-flight, $100 TVL, ample balances, zero
gas price, a reverting close submission and a succeeding open submission. -/
def baseEnvAt (now : ℚ) : TickEnv :=
  { now := now
    strategy_loaded := true
    signal := longSignal
    positions := []
    market_address := some "0xMarket"
    preflight_ok := true
    tvl_usd := 100
    usdc_balance := 50
    weth_balance := 1
    gas_price := 0
    close_chain := ChainOutcome.err "Transaction reverted: 0xclose"
    open_chain := ChainOutcome.ok "0xopen" 100
    prior_trades := 0 }

/-- The concrete tick environment at fire time 0. -/
def baseEnv : TickEnv := baseEnvAt 0

/-- The close outcome `_close_positions` produces for a successful close of
`longPosition` at price 100 (direction 0 — "Closing = neutral" per the
scheduler source comment). -/
def sampleCloseResult : TradeResult :=
  (close_positions sampleSettings "BTC" [longPosition] 100 "0xVault"
      (some "0xMarket") 0 (ChainOutcome.ok "0xclose" 77) 0).getD
    (failedTrade longSignal "unreachable" 0)

/-- The flip tick environment at a chosen fire time: SHORT signal against
an existing LONG position, other observations as in `baseEnvAt`. -/
def flipEnvAt (now : ℚ) : TickEnv :=
  { baseEnvAt now with signal := shortSignal, positions := [longPosition] }

/-- A concrete loaded-strategy metadata record. -/
def sampleStrategy : StrategyMeta :=
  { slug := "trend", asset := "BTC", timeframe := "1H"
    stop_loss_pct := 1 / 50, take_profit_pct := 1 / 20 }

/-- Python `int()` truncation stays within one unit below its argument. -/
theorem sub_one_lt_pyInt (q : ℚ) : q - 1 < (pyInt q : ℤ) := by
  unfold pyInt
  split_ifs with h
  · exact Int.sub_one_lt_floor q
  · calc q - 1 < q := by linarith
    _ ≤ (⌈q⌉ : ℚ) := Int.le_ceil q

/-- Python `int()` truncation stays within one unit above its argument. -/
theorem pyInt_lt_add_one (q : ℚ) : (pyInt q : ℤ) < q + 1 := by
  unfold pyInt
  split_ifs with h
  · calc (⌊q⌋ : ℚ) ≤ q := Int.floor_le q
    _ < q + 1 := by linarith
  · exact Int.ceil_lt_add_one q

/-- A recorded failure increments the breaker's failure count by one. -/
theorem failuresOf_record_failure (cb : Option CBState) (now : ℚ) :
    failuresOf (record_trade_result cb false now) = failuresOf cb + 1 := by
  cases cb <;> simp [record_trade_result, failuresOf]

/-- C1: if the circuit breaker reports the vault broken at the start of a
tick, `_process_vault` returns before generating a signal: no close or open
order is built or submitted and no SignalLog or TradeRecord is persisted —
the tick's effect list is empty. -/
theorem C1_broken_circuit_blocks_tick (s : Settings) (cb : Option CBState)
    (v : VaultRow) (env : TickEnv)
    (h : (is_circuit_broken cb env.now).1 = true) :
    (process_vault s cb v env).1 = [] := by
  simp [process_vault, h]

/-- Witness for C1: a breaker entry at the 5-failure threshold tripped at
time 0, queried at time 0, reports broken, and the tick emits no effects. -/
theorem C1_broken_circuit_blocks_tick_witness :
    (is_circuit_broken (some { failures := 5, tripped_at := some 0 }) baseEnv.now).1 = true
    ∧ (process_vault sampleSettings (some { failures := 5, tripped_at := some 0 })
        sampleVault baseEnv).1 = [] := by
  have hb : (is_circuit_broken (some { failures := 5, tripped_at := some 0 })
      baseEnv.now).1 = true := by
    norm_num [is_circuit_broken, baseEnv, baseEnvAt,
      CIRCUIT_BREAKER_THRESHOLD, CIRCUIT_BREAKER_COOLDOWN]
  exact ⟨hb, C1_broken_circuit_blocks_tick _ _ _ _ hb⟩

/-- C7: with a non-null `last_checked_at = t`, a main-loop fire at `now`
visits the vault iff `now - t` reaches the interval of its check-interval
token; a skipped vault's row is returned unchanged with no effects; and
re-running immediately after a visit, before the interval expires, is a
no-op for the vault. -/
theorem C7_interval_gating (s : Settings) (cb cb2 : Option CBState)
    (v : VaultRow) (env : TickEnv) (t : ℚ)
    (h : v.last_checked_at = some t) :
    (should_check v env.now = true ↔
        env.now - t ≥ interval_seconds (v.check_interval.getD "1m"))
    ∧ (should_check v env.now = false → main_loop_vault s cb v env = (v, [], cb))
    ∧ (∀ env2 : TickEnv,
        env2.now - env.now < interval_seconds (v.check_interval.getD "1m") →
        main_loop_vault s cb2 { v with last_checked_at := some env.now } env2 =
          ({ v with last_checked_at := some env.now }, [], cb2)) := by
  refine ⟨?_, ?_, ?_⟩
  · simp [should_check, h]
  · intro hsc
    simp [main_loop_vault, hsc]
  · intro env2 hlt
    have hno : ¬ (env2.now - env.now ≥ interval_seconds (v.check_interval.getD "1m")) :=
      not_le.mpr hlt
    have hsc : should_check { v with last_checked_at := some env.now } env2.now = false := by
      simp [should_check, hno]
    simp [main_loop_vault, hsc]

/-- Witness for C7: a vault last checked at time 0 on a 5-minute interval,
fired again at time 100 (< 300 s), is skipped with its row unchanged. -/
theorem C7_interval_gating_witness :
    sampleVault.last_checked_at = some 0
    ∧ should_check sampleVault (baseEnvAt 100).now = false
    ∧ main_loop_vault sampleSettings none sampleVault (baseEnvAt 100) =
        (sampleVault, [], none) := by
  have hsc : should_check sampleVault (baseEnvAt 100).now = false := by
    simp [should_check, sampleVault, baseEnvAt, interval_seconds]
    norm_num
  exact ⟨rfl, hsc,
    (C7_interval_gating sampleSettings none none sampleVault
      (baseEnvAt 100) 0 rfl).2.1 hsc⟩

/-- C9: for a vault that passes interval gating, the main loop sets
`last_checked_at` to the fire's `now` whatever the tick's outcome (the
breaker state, signal, positions and chain outcomes are universally
quantified here), and modifies no other field of the vault row. -/
theorem C9_visit_sets_only_last_checked (s : Settings) (cb : Option CBState)
    (v : VaultRow) (env : TickEnv) (h : should_check v env.now = true) :
    (main_loop_vault s cb v env).1.last_checked_at = some env.now
    ∧ (main_loop_vault s cb v env).1.address = v.address
    ∧ (main_loop_vault s cb v env).1.status = v.status
    ∧ (main_loop_vault s cb v env).1.check_interval = v.check_interval
    ∧ (main_loop_vault s cb v env).1.strategy_id = v.strategy_id := by
  simp [main_loop_vault, h]

/-- Witness for C9: a due vault (elapsed 3000 s ≥ 300 s) is visited and only
`last_checked_at` moves. -/
theorem C9_visit_sets_only_last_checked_witness :
    should_check sampleVault (baseEnvAt 3000).now = true
    ∧ ((main_loop_vault sampleSettings none sampleVault
          (baseEnvAt 3000)).1.last_checked_at = some (baseEnvAt 3000).now
      ∧ (main_loop_vault sampleSettings none sampleVault
          (baseEnvAt 3000)).1.address = sampleVault.address
      ∧ (main_loop_vault sampleSettings none sampleVault
          (baseEnvAt 3000)).1.status = sampleVault.status
      ∧ (main_loop_vault sampleSettings none sampleVault
          (baseEnvAt 3000)).1.check_interval = sampleVault.check_interval
      ∧ (main_loop_vault sampleSettings none sampleVault
          (baseEnvAt 3000)).1.strategy_id = sampleVault.strategy_id) := by
  have hsc : should_check sampleVault (baseEnvAt 3000).now = true := by
    simp [should_check, sampleVault, baseEnvAt, interval_seconds]
    norm_num
  exact ⟨hsc, C9_visit_sets_only_last_checked sampleSettings none sampleVault
    (baseEnvAt 3000) hsc⟩

/-- A neutral direction sizes to zero (`_calculate_size`). -/
theorem calculate_size_zero (confidence : ℚ) : calculate_size 0 confidence = 0 := by
  simp [calculate_size]

/-- A non-neutral direction sizes into [0.1, 1] (`_calculate_size`). -/
theorem calculate_size_bounds (direction : ℤ) (confidence : ℚ) (h : direction ≠ 0) :
    1 / 10 ≤ calculate_size direction confidence
    ∧ calculate_size direction confidence ≤ 1 := by
  unfold calculate_size
  rw [if_neg h]
  refine ⟨le_max_left _ _, max_le (by norm_num) ?_⟩
  simp only [one_mul]
  exact min_le_right confidence 1

/-- C10: every signal the generator produces satisfies the joint constraint
on direction and size: a neutral direction carries `size_pct = 0`, and a
non-neutral direction carries `size_pct ∈ [0.1, 1.0]` — in particular every
generated signal with nonzero direction has positive size and is
actionable. -/
theorem C10_signal_size_invariant (strat : StrategyMeta) (fetch : MarketFetch)
    (strategy_output : Option (List ℤ)) :
    ((generate_signal strat fetch strategy_output).direction = 0 →
      (generate_signal strat fetch strategy_output).size_pct = 0)
    ∧ ((generate_signal strat fetch strategy_output).direction ≠ 0 →
      1 / 10 ≤ (generate_signal strat fetch strategy_output).size_pct
      ∧ (generate_signal strat fetch strategy_output).size_pct ≤ 1) := by
  cases fetch with
  | err msg => simp [generate_signal, neutral_signal]
  | ok price n =>
    by_cases hp : price ≤ 0
    · simp [generate_signal, hp, neutral_signal]
    · by_cases hn : n < 10
      · simp [generate_signal, hp, hn, neutral_signal]
      · cases strategy_output with
        | none => simp [generate_signal, hp, hn, neutral_signal]
        | some sigs =>
          cases sigs with
          | nil => simp [generate_signal, hp, hn, neutral_signal]
          | cons a rest =>
            have hgen : generate_signal strat (MarketFetch.ok price n) (some (a :: rest)) =
                (let latest := (a :: rest).getLast?.getD 0
                 let latest_signal :=
                   if latest = -1 ∨ latest = 0 ∨ latest = 1 then latest else 0
                 let confidence := calculate_confidence (a :: rest)
                 let levels := calculate_risk_levels strat latest_signal price
                 { direction := latest_signal
                   confidence := confidence
                   size_pct := calculate_size latest_signal confidence
                   reason := generate_reason strat latest_signal
                   current_price := price
                   stop_loss := levels.1
                   take_profit := levels.2
                   strategy_slug := strat.slug
                   asset := strat.asset
                   timeframe := strat.timeframe }) := by
              simp [generate_signal, hp, hn]
            rw [hgen]
            constructor
            · intro h0
              simp only at h0 ⊢
              rw [h0]
              exact calculate_size_zero _
            · intro hne
              simp only at hne ⊢
              exact calculate_size_bounds _ _ hne

/-- Witness for C10: five consecutive LONG outputs at price 100 yield a
direction-1 signal whose size lies in [0.1, 1]. -/
theorem C10_signal_size_invariant_witness :
    (generate_signal sampleStrategy (MarketFetch.ok 100 20)
        (some [1, 1, 1, 1, 1])).direction ≠ 0
    ∧ (1 / 10 ≤ (generate_signal sampleStrategy (MarketFetch.ok 100 20)
          (some [1, 1, 1, 1, 1])).size_pct
      ∧ (generate_signal sampleStrategy (MarketFetch.ok 100 20)
          (some [1, 1, 1, 1, 1])).size_pct ≤ 1) := by
  have hd : (generate_signal sampleStrategy (MarketFetch.ok 100 20)
      (some [1, 1, 1, 1, 1])).direction ≠ 0 := by
    norm_num [generate_signal]
  exact ⟨hd, (C10_signal_size_invariant sampleStrategy (MarketFetch.ok 100 20)
    (some [1, 1, 1, 1, 1])).2 hd⟩

/-- C4: with a positive price, an open order's calldata is a multicall of
exactly three calls in order — sendTokens of the WETH execution fee to the
order vault, sendTokens of the collateral to the order vault, then
createOrder with orderType 2 (MarketIncrease) — and a close order's
multicall omits the collateral sendTokens step, sets
initialCollateralDeltaAmount to 0, and uses orderType 4 (MarketDecrease). -/
theorem C4_multicall_structure (s : Settings) (vault_address market_address : String)
    (size_usd : ℚ) (is_long : Bool) (current_price : ℚ) (gas_price : ℤ)
    (h : 0 < current_price) :
    build_order_calldata s vault_address market_address size_usd is_long
        current_price gas_price =
      Except.ok
        ([RouterCall.sendTokens WETH_ADDRESS GMX_ORDER_VAULT
            (calculate_execution_fee s gas_price),
          RouterCall.sendTokens s.gmx_collateral_token GMX_ORDER_VAULT
            (collateral_amount_of s size_usd),
          RouterCall.createOrder (open_order_params s vault_address market_address
            size_usd is_long current_price gas_price)],
         calculate_execution_fee s gas_price)
    ∧ (open_order_params s vault_address market_address size_usd is_long
        current_price gas_price).orderType = 2
    ∧ build_close_order_calldata s vault_address market_address size_usd is_long
        current_price gas_price =
      Except.ok
        ([RouterCall.sendTokens WETH_ADDRESS GMX_ORDER_VAULT
            (calculate_execution_fee s gas_price),
          RouterCall.createOrder (close_order_params s vault_address market_address
            size_usd is_long current_price gas_price)],
         calculate_execution_fee s gas_price)
    ∧ (close_order_params s vault_address market_address size_usd is_long
        current_price gas_price).orderType = 4
    ∧ (close_order_params s vault_address market_address size_usd is_long
        current_price gas_price).initialCollateralDeltaAmount = 0 := by
  have hnp : ¬ current_price ≤ 0 := not_le.mpr h
  refine ⟨?_, rfl, ?_, rfl, rfl⟩
  · simp [build_order_calldata, hnp]
  · simp [build_close_order_calldata, hnp]

/-- Witness for C4: the builders at price 100 emit exactly the stated
multicalls. -/
theorem C4_multicall_structure_witness :
    (0 : ℚ) < 100
    ∧ (build_order_calldata sampleSettings "0xVault" "0xMarket" 100 true 100 0 =
        Except.ok
          ([RouterCall.sendTokens WETH_ADDRESS GMX_ORDER_VAULT
              (calculate_execution_fee sampleSettings 0),
            RouterCall.sendTokens sampleSettings.gmx_collateral_token GMX_ORDER_VAULT
              (collateral_amount_of sampleSettings 100),
            RouterCall.createOrder (open_order_params sampleSettings "0xVault" "0xMarket"
              100 true 100 0)],
           calculate_execution_fee sampleSettings 0)
      ∧ (open_order_params sampleSettings "0xVault" "0xMarket" 100 true 100 0).orderType = 2
      ∧ build_close_order_calldata sampleSettings "0xVault" "0xMarket" 100 true 100 0 =
        Except.ok
          ([RouterCall.sendTokens WETH_ADDRESS GMX_ORDER_VAULT
              (calculate_execution_fee sampleSettings 0),
            RouterCall.createOrder (close_order_params sampleSettings "0xVault" "0xMarket"
              100 true 100 0)],
           calculate_execution_fee sampleSettings 0)
      ∧ (close_order_params sampleSettings "0xVault" "0xMarket" 100 true 100 0).orderType = 4
      ∧ (close_order_params sampleSettings "0xVault" "0xMarket"
          100 true 100 0).initialCollateralDeltaAmount = 0) :=
  ⟨by norm_num,
   C4_multicall_structure sampleSettings "0xVault" "0xMarket" 100 true 100 0 (by norm_num)⟩

/-- The slippage fraction is non-negative (`max(bps, 0) / 10000`). -/
theorem slippage_of_nonneg (s : Settings) : 0 ≤ slippage_of s := by
  unfold slippage_of
  have h0 : (0 : ℤ) ≤ max s.gmx_slippage_bps 0 := le_max_right _ _
  have : (0 : ℚ) ≤ ((max s.gmx_slippage_bps 0 : ℤ) : ℚ) := by exact_mod_cast h0
  positivity

/-- Truncation of a value inside `[lo, hi]` lands inside `[lo - 1, hi + 1]`. -/
theorem pyInt_within (lo hi q : ℚ) (h1 : lo ≤ q) (h2 : q ≤ hi) :
    lo - 1 ≤ ((pyInt q : ℤ) : ℚ) ∧ ((pyInt q : ℤ) : ℚ) ≤ hi + 1 := by
  have ha := sub_one_lt_pyInt q
  have hb := pyInt_lt_add_one q
  constructor
  · have : lo - 1 < ((pyInt q : ℤ) : ℚ) := lt_of_le_of_lt (by linarith) ha
    linarith
  · have : ((pyInt q : ℤ) : ℚ) < hi + 1 := lt_of_lt_of_le hb (by linarith)
    linarith

/-- C5 (amended): for every builder output with positive price, writing
`slippage = max(GMX_SLIPPAGE_BPS, 0)/10000`, `lo = price(1-slippage)·10³⁰`
and `hi = price(1+slippage)·10³⁰`, the encoded acceptable price is the
directional factor the claim states — opens use `(1+slippage)` for LONG and
`(1-slippage)` for SHORT, closes invert — and, because the source truncates
with `int(...)`, it lies within the interval widened by one integer unit of
the 10⁻³⁰ price scale: `[lo - 1, hi + 1]` (the exact interval `[lo, hi]`
can be undershot by truncation; see the counterexample). -/
theorem C5_acceptable_price_bounds (s : Settings)
    (vault_address market_address : String) (size_usd : ℚ) (gas_price : ℤ)
    (current_price : ℚ) (h : 0 < current_price) :
    (∀ is_long : Bool,
      acceptablePriceOf (build_order_calldata s vault_address market_address
          size_usd is_long current_price gas_price) =
        some (acceptable_price_open s is_long current_price)
      ∧ acceptablePriceOf (build_close_order_calldata s vault_address market_address
          size_usd is_long current_price gas_price) =
        some (acceptable_price_close s is_long current_price))
    ∧ acceptable_price_open s true current_price =
        pyInt (current_price * (1 + slippage_of s) * PRICE_SCALE)
    ∧ acceptable_price_open s false current_price =
        pyInt (current_price * (1 - slippage_of s) * PRICE_SCALE)
    ∧ acceptable_price_close s true current_price =
        pyInt (current_price * (1 - slippage_of s) * PRICE_SCALE)
    ∧ acceptable_price_close s false current_price =
        pyInt (current_price * (1 + slippage_of s) * PRICE_SCALE)
    ∧ (∀ is_long : Bool,
      (current_price * (1 - slippage_of s) * PRICE_SCALE - 1 ≤
          ((acceptable_price_open s is_long current_price : ℤ) : ℚ)
        ∧ ((acceptable_price_open s is_long current_price : ℤ) : ℚ) ≤
          current_price * (1 + slippage_of s) * PRICE_SCALE + 1)
      ∧ (current_price * (1 - slippage_of s) * PRICE_SCALE - 1 ≤
          ((acceptable_price_close s is_long current_price : ℤ) : ℚ)
        ∧ ((acceptable_price_close s is_long current_price : ℤ) : ℚ) ≤
          current_price * (1 + slippage_of s) * PRICE_SCALE + 1)) := by
  have hnp : ¬ current_price ≤ 0 := not_le.mpr h
  have hslip := slippage_of_nonneg s
  have hscale : (0 : ℚ) ≤ PRICE_SCALE := by norm_num [PRICE_SCALE]
  have hlohi : current_price * (1 - slippage_of s) * PRICE_SCALE ≤
      current_price * (1 + slippage_of s) * PRICE_SCALE := by
    have : current_price * (1 - slippage_of s) ≤ current_price * (1 + slippage_of s) :=
      mul_le_mul_of_nonneg_left (by linarith) h.le
    exact mul_le_mul_of_nonneg_right this hscale
  refine ⟨?_, rfl, rfl, rfl, rfl, ?_⟩
  · intro il
    constructor
    · simp [acceptablePriceOf, orderParamsOf, build_order_calldata, hnp,
        open_order_params, List.findSome?]
    · simp [acceptablePriceOf, orderParamsOf, build_close_order_calldata, hnp,
        close_order_params, List.findSome?]
  · intro il
    constructor
    · cases il with
      | true => exact pyInt_within _ _ _ hlohi le_rfl
      | false => exact pyInt_within _ _ _ le_rfl hlohi
    · cases il with
      | true => exact pyInt_within _ _ _ le_rfl hlohi
      | false => exact pyInt_within _ _ _ hlohi le_rfl

/-- Witness for C5: at price 100 with the default 50 bps configuration the
open-order builder emits the LONG acceptable price and it obeys the bounds. -/
theorem C5_acceptable_price_bounds_witness :
    (0 : ℚ) < 100
    ∧ acceptablePriceOf (build_order_calldata sampleSettings "0xVault" "0xMarket"
        100 true 100 0) = some (acceptable_price_open sampleSettings true 100)
    ∧ (100 * (1 - slippage_of sampleSettings) * PRICE_SCALE - 1 ≤
        ((acceptable_price_open sampleSettings true 100 : ℤ) : ℚ)
      ∧ ((acceptable_price_open sampleSettings true 100 : ℤ) : ℚ) ≤
        100 * (1 + slippage_of sampleSettings) * PRICE_SCALE + 1) :=
  ⟨by norm_num,
   ((C5_acceptable_price_bounds sampleSettings "0xVault" "0xMarket" 100 0 100
      (by norm_num)).1 true).1,
   ((C5_acceptable_price_bounds sampleSettings "0xVault" "0xMarket" 100 0 100
      (by norm_num)).2.2.2.2.2 true).1⟩

/-- Helper: with a positive price the open builder's `createOrder`
acceptable price is `acceptable_price_open`. -/
theorem acceptablePriceOf_build_open (s : Settings) (va ma : String) (su : ℚ)
    (il : Bool) (cp : ℚ) (gp : ℤ) (h : ¬ cp ≤ 0) :
    acceptablePriceOf (build_order_calldata s va ma su il cp gp) =
      some (acceptable_price_open s il cp) := by
  simp [acceptablePriceOf, orderParamsOf, build_order_calldata, h,
    open_order_params, List.findSome?]

/-- Counterexample for C5 as stated: with the default 50 bps slippage and
the (pathologically small but positive) price `1 / (2·10³⁰)`, the open-LONG
order's encoded acceptable price truncates to 0, strictly below the claimed
inclusive lower bound `price × (1 − slippage) × 10³⁰ = 199/400`. -/
theorem C5_counterexample :
    acceptablePriceOf (build_order_calldata sampleSettings "0xVault" "0xMarket"
        100 true (1 / (2 * 10 ^ 30)) 0) = some 0
    ∧ ((0 : ℤ) : ℚ) <
        (1 / (2 * 10 ^ 30) : ℚ) * (1 - slippage_of sampleSettings) * PRICE_SCALE := by
  have hs : slippage_of sampleSettings = 1 / 200 := by
    norm_num [slippage_of, sampleSettings]
  have harg : (1 / (2 * 10 ^ 30) : ℚ) * (1 + 1 / 200) * PRICE_SCALE = 201 / 400 := by
    rw [PRICE_SCALE]
    norm_num
  have hfloor : pyInt (201 / 400 : ℚ) = 0 := by
    unfold pyInt
    rw [if_pos (by norm_num)]
    exact Int.floor_eq_zero_iff.mpr ⟨by norm_num, by norm_num⟩
  have hap : acceptable_price_open sampleSettings true (1 / (2 * 10 ^ 30)) = 0 := by
    show pyInt ((1 / (2 * 10 ^ 30) : ℚ) * (1 + slippage_of sampleSettings) * PRICE_SCALE) = 0
    rw [hs, harg, hfloor]
  have hnp : ¬ (1 / (2 * 10 ^ 30) : ℚ) ≤ 0 := by norm_num
  constructor
  · rw [acceptablePriceOf_build_open sampleSettings "0xVault" "0xMarket" 100 true
      (1 / (2 * 10 ^ 30)) 0 hnp, hap]
  · rw [hs, PRICE_SCALE]
    norm_num

/-- C3 (amended): for an open trade without a size override, writing
`leverage = max(GMX_DEFAULT_LEVERAGE, 1)`, `fee = execution_fee / 10¹⁸` and
`cap = usdc_balance × leverage × 0.95`: when the collateral balance covers
`tvl × size_pct / leverage` and the WETH balance covers the fee, the size is
exactly `tvl × size_pct`; on a collateral shortfall the size is capped at
`cap` — except that a cap below $1 is rounded down to 0 (dust skip), the
amendment the counterexample forces; and whenever the WETH balance is below
the fee the computed size is 0 (the caller then aborts the trade).  The
spec's Scenario 4 (TVL $100, leverage 5, USDC $10, size_pct 1) yields
exactly $47.50. -/
theorem C3_size_calculation (s : Settings) (tvl pct usdc weth : ℚ) (gp : ℤ)
    (htvl : 0 ≤ tvl) :
    (tvl * pct / max s.gmx_default_leverage 1 ≤ usdc →
      (calculate_execution_fee s gp : ℚ) / 10 ^ 18 ≤ weth →
      calculate_size_usd s tvl pct usdc weth gp = tvl * pct)
    ∧ (usdc < tvl * pct / max s.gmx_default_leverage 1 →
      1 ≤ usdc * max s.gmx_default_leverage 1 * (95 / 100) →
      (calculate_execution_fee s gp : ℚ) / 10 ^ 18 ≤ weth →
      calculate_size_usd s tvl pct usdc weth gp =
        usdc * max s.gmx_default_leverage 1 * (95 / 100))
    ∧ (usdc < tvl * pct / max s.gmx_default_leverage 1 →
      usdc * max s.gmx_default_leverage 1 * (95 / 100) < 1 →
      calculate_size_usd s tvl pct usdc weth gp = 0)
    ∧ (weth < (calculate_execution_fee s gp : ℚ) / 10 ^ 18 →
      calculate_size_usd s tvl pct usdc weth gp = 0)
    ∧ calculate_size_usd sampleSettings 100 1 10 1000000 0 = 95 / 2 := by
  have hlev : (0 : ℚ) < max s.gmx_default_leverage 1 :=
    lt_of_lt_of_le one_pos (le_max_right _ _)
  refine ⟨?_, ?_, ?_, ?_, ?_⟩
  · intro h1 h2
    simp only [calculate_size_usd]
    split_ifs with ha hb hc hd
    all_goals try rfl
    all_goals try linarith
    all_goals (have h0 : tvl = 0 := le_antisymm ha htvl; rw [h0]; ring)
  · intro h1 h2 h3
    simp only [calculate_size_usd]
    split_ifs with ha hb hc hd
    all_goals try rfl
    all_goals try linarith
    all_goals
      (exfalso
       have h0 : tvl = 0 := le_antisymm ha htvl
       rw [h0, zero_mul, zero_div] at h1
       have hneg : usdc * max s.gmx_default_leverage 1 < 0 :=
         mul_neg_of_neg_of_pos h1 hlev
       nlinarith)
  · intro h1 h2
    simp only [calculate_size_usd]
    split_ifs with ha hb hc hd
    all_goals first | rfl | linarith
  · intro h1
    simp only [calculate_size_usd]
    split_ifs with ha hb hc hd
    all_goals first | rfl | linarith
  · norm_num [calculate_size_usd, sampleSettings, calculate_execution_fee, pyInt,
      max_def, EXECUTION_GAS, CALLBACK_GAS_LIMIT]

/-- Witness for C3: Scenario 4 concretely — TVL $100, leverage 5, USDC $10,
size_pct 1 and ample WETH yield exactly $47.50. -/
theorem C3_size_calculation_witness :
    (0 : ℚ) ≤ 100
    ∧ calculate_size_usd sampleSettings 100 1 10 1000000 0 = 95 / 2 :=
  ⟨by norm_num,
   (C3_size_calculation sampleSettings 100 1 10 1000000 0 (by norm_num)).2.2.2.2⟩

/-- Counterexample for C3 as stated: TVL $10, size_pct 1, leverage 5 and a
USDC balance of $0.10 give a collateral shortfall whose cap is
`0.10 × 5 × 0.95 = $0.475`, yet the computed size is 0 (the source zeroes
any capped size below $1), so the size is not "capped at
collateral_balance × leverage × 0.95" as the claim states — even though the
WETH balance covers the fee. -/
theorem C3_counterexample :
    calculate_size_usd sampleSettings 10 1 (1 / 10) 1000000 0 = 0
    ∧ (1 / 10 : ℚ) * max sampleSettings.gmx_default_leverage 1 * (95 / 100) = 19 / 40
    ∧ (0 : ℚ) ≠ 19 / 40
    ∧ (1 / 10 : ℚ) < 10 * 1 / max sampleSettings.gmx_default_leverage 1
    ∧ (calculate_execution_fee sampleSettings 0 : ℚ) / 10 ^ 18 ≤ 1000000 := by
  refine ⟨?_, ?_, by norm_num, ?_, ?_⟩
  · norm_num [calculate_size_usd, sampleSettings, calculate_execution_fee, pyInt,
      max_def, EXECUTION_GAS, CALLBACK_GAS_LIMIT]
  · norm_num [sampleSettings, max_def]
  · norm_num [sampleSettings, max_def]
  · norm_num [sampleSettings, calculate_execution_fee, pyInt,
      EXECUTION_GAS, CALLBACK_GAS_LIMIT]

/-- C8 evidence: `log_trade` maps direction +1 to side LONG and direction
−1 to side SHORT, but a close outcome — which `_close_positions` produces
with direction 0 ("Closing = neutral" per the scheduler source) — is also
persisted with side "SHORT", not a neutral side: the binary
`"LONG" if direction == 1 else "SHORT"` in trade_logger.py collapses the
neutral case onto SHORT. -/
theorem C8_trade_side_mapping :
    sampleCloseResult.direction = 0
    ∧ (log_trade "0xVault" 7 0 sampleCloseResult).side = "SHORT"
    ∧ (log_trade "0xVault" 7 0
        { success := true, tx_hash := some "0xa", error := none, gas_used := 1,
          timestamp := 0, direction := 1, asset := "BTC", size := 50,
          entry_price := 100 }).side = "LONG"
    ∧ (log_trade "0xVault" 7 0
        { success := true, tx_hash := some "0xb", error := none, gas_used := 1,
          timestamp := 0, direction := -1, asset := "BTC", size := 50,
          entry_price := 100 }).side = "SHORT" := by
  have hcr : sampleCloseResult =
      { success := true, tx_hash := some "0xclose", error := none, gas_used := 77,
        timestamp := 0, direction := 0, asset := "BTC", size := 100,
        entry_price := 100 } := by
    norm_num [sampleCloseResult, close_positions, longPosition, sampleSettings,
      build_close_order_calldata]
  refine ⟨by rw [hcr], by rw [hcr]; norm_num [log_trade], ?_, ?_⟩
  · norm_num [log_trade]
  · norm_num [log_trade]

/-- C2 (amended): ConfigDisabled, MissingCredential and InsufficientFunds
all surface as *failed* TradeOutcomes from `execute_trade`, and the
scheduler counts every failed open toward the circuit breaker and persists
a TradeRecord for it — so these failure kinds DO increment
`consecutive_failures` by one, and an InsufficientFunds shortfall does
produce a persisted failed TradeRecord (the executor converts the zero-size
abort into a failed outcome that the scheduler logs and counts). -/
theorem C2_untracked_failures_are_counted (s : Settings) (cb : Option CBState)
    (v : VaultRow) (env : TickEnv) :
    (env.signal.is_actionable = true → s.trading_enabled = false →
      (execute_trade s env.signal v.address none env.market_address env.preflight_ok
        env.tvl_usd env.usdc_balance env.weth_balance env.gas_price env.open_chain
        env.now).success = false
      ∧ (execute_trade s env.signal v.address none env.market_address env.preflight_ok
        env.tvl_usd env.usdc_balance env.weth_balance env.gas_price env.open_chain
        env.now).error = some "Trading disabled")
    ∧ (env.signal.is_actionable = true → s.trading_enabled = true →
      s.trader_private_key = none →
      (execute_trade s env.signal v.address none env.market_address env.preflight_ok
        env.tvl_usd env.usdc_balance env.weth_balance env.gas_price env.open_chain
        env.now).success = false
      ∧ (execute_trade s env.signal v.address none env.market_address env.preflight_ok
        env.tvl_usd env.usdc_balance env.weth_balance env.gas_price env.open_chain
        env.now).error = some "Missing trader private key")
    ∧ (∀ market : String, env.signal.is_actionable = true → s.trading_enabled = true →
      s.trader_private_key ≠ none → env.market_address = some market →
      env.preflight_ok = true →
      calculate_size_usd s env.tvl_usd env.signal.size_pct env.usdc_balance
        env.weth_balance env.gas_price ≤ 0 →
      (execute_trade s env.signal v.address none env.market_address env.preflight_ok
        env.tvl_usd env.usdc_balance env.weth_balance env.gas_price env.open_chain
        env.now).success = false
      ∧ (execute_trade s env.signal v.address none env.market_address env.preflight_ok
        env.tvl_usd env.usdc_balance env.weth_balance env.gas_price env.open_chain
        env.now).error = some "Computed trade size is zero")
    ∧ ((is_circuit_broken cb env.now).1 = false → env.strategy_loaded = true →
      net_position_direction env.positions = 0 → env.signal.direction ≠ 0 →
      (execute_trade s env.signal v.address none env.market_address env.preflight_ok
        env.tvl_usd env.usdc_balance env.weth_balance env.gas_price env.open_chain
        env.now).success = false →
      process_vault s cb v env =
        ([Event.signalLogged env.signal.direction, Event.openAttempted,
          Event.tradeLogged (log_trade v.address v.strategy_id env.prior_trades
            (execute_trade s env.signal v.address none env.market_address
              env.preflight_ok env.tvl_usd env.usdc_balance env.weth_balance
              env.gas_price env.open_chain env.now))],
         record_trade_result (is_circuit_broken cb env.now).2 false env.now)
      ∧ failuresOf (process_vault s cb v env).2 =
          failuresOf (is_circuit_broken cb env.now).2 + 1) := by
  refine ⟨?_, ?_, ?_, ?_⟩
  · intro hact hdis
    constructor <;> simp [execute_trade, hact, hdis]
  · intro hact hen hkey
    constructor <;> simp [execute_trade, hact, hen, hkey]
  · intro market hact hen hkey hmkt hpre hsz
    constructor <;>
      simp [execute_trade, hact, hen, hkey, hmkt, hpre, hsz, failedTrade]
  · intro hb hs hcur hd hfail
    have hact : env.signal.is_actionable = true := by
      simp [Signal.is_actionable, hd]
    have hpeq : process_vault s cb v env =
        ([Event.signalLogged env.signal.direction, Event.openAttempted,
          Event.tradeLogged (log_trade v.address v.strategy_id env.prior_trades
            (execute_trade s env.signal v.address none env.market_address
              env.preflight_ok env.tvl_usd env.usdc_balance env.weth_balance
              env.gas_price env.open_chain env.now))],
         record_trade_result (is_circuit_broken cb env.now).2 false env.now) := by
      simp [process_vault, hb, hs, hcur, hd, run_open_phase, hact, hfail]
    refine ⟨hpeq, ?_⟩
    rw [hpeq]
    exact failuresOf_record_failure _ _

/-- Witness for C2 (amended): with trading disabled and an actionable LONG
signal, the executor returns a failed outcome marked "Trading disabled". -/
theorem C2_untracked_failures_are_counted_witness :
    longSignal.is_actionable = true
    ∧ disabledSettings.trading_enabled = false
    ∧ (execute_trade disabledSettings baseEnv.signal sampleVault.address none
        baseEnv.market_address baseEnv.preflight_ok baseEnv.tvl_usd
        baseEnv.usdc_balance baseEnv.weth_balance baseEnv.gas_price
        baseEnv.open_chain baseEnv.now).success = false
    ∧ (execute_trade disabledSettings baseEnv.signal sampleVault.address none
        baseEnv.market_address baseEnv.preflight_ok baseEnv.tvl_usd
        baseEnv.usdc_balance baseEnv.weth_balance baseEnv.gas_price
        baseEnv.open_chain baseEnv.now).error = some "Trading disabled" := by
  have h := (C2_untracked_failures_are_counted disabledSettings none sampleVault
    baseEnv).1 (by norm_num [baseEnv, baseEnvAt, Signal.is_actionable, longSignal]) rfl
  exact ⟨by norm_num [Signal.is_actionable, longSignal], rfl, h.1, h.2⟩

/-- Counterexample for C2 as stated: a tick with TVL 0 (InsufficientFunds —
the computed size is zero) still persists a failed TradeRecord and
increments the vault's consecutive-failure count from 0 to 1. -/
theorem C2_counterexample :
    (execute_trade sampleSettings longSignal "0xVault" none (some "0xMarket") true
        0 50 1 0 (ChainOutcome.ok "0xopen" 100) 0).success = false
    ∧ (execute_trade sampleSettings longSignal "0xVault" none (some "0xMarket") true
        0 50 1 0 (ChainOutcome.ok "0xopen" 100) 0).error =
        some "Computed trade size is zero"
    ∧ failuresOf none = 0
    ∧ failuresOf (process_vault sampleSettings none sampleVault
        { baseEnv with tvl_usd := 0 }).2 = 1
    ∧ (process_vault sampleSettings none sampleVault
        { baseEnv with tvl_usd := 0 }).1 =
      [Event.signalLogged 1, Event.openAttempted,
       Event.tradeLogged (log_trade "0xVault" 7 0
         (failedTrade longSignal "Computed trade size is zero" 0))] := by
  have hsz : calculate_size_usd sampleSettings 0 longSignal.size_pct 50 1 0 ≤ 0 := by
    norm_num [calculate_size_usd, longSignal]
  have hex : execute_trade sampleSettings longSignal "0xVault" none (some "0xMarket")
      true 0 50 1 0 (ChainOutcome.ok "0xopen" 100) 0 =
      failedTrade longSignal "Computed trade size is zero" 0 := by
    simp [execute_trade, Signal.is_actionable, longSignal, sampleSettings, hsz]
    norm_num [calculate_size_usd]
  have hdir : longSignal.direction = 1 := rfl
  have hact : longSignal.is_actionable = true := by
    norm_num [Signal.is_actionable, longSignal]
  refine ⟨by rw [hex]; rfl, by rw [hex]; rfl, rfl, ?_, ?_⟩
  · simp [process_vault, baseEnv, baseEnvAt, is_circuit_broken, hdir, hact,
      net_position_direction, run_open_phase, sampleVault, record_trade_result,
      failuresOf, hex, failedTrade, CIRCUIT_BREAKER_THRESHOLD]
  · simp [process_vault, baseEnv, baseEnvAt, is_circuit_broken, hdir, hact,
      net_position_direction, run_open_phase, sampleVault, record_trade_result,
      failuresOf, hex, CIRCUIT_BREAKER_THRESHOLD]

/-- C6 (amended): in a position-flip tick (signal and net position nonzero
and opposed) whose close submission yields a failed outcome, the tick
aborts before the open: its effects are exactly the signal log, the close
attempt and one failed TradeRecord for the close — no open is attempted —
and `consecutive_failures` ends exactly one above its value after the
start-of-tick circuit check (that check clears an entry whose cooldown has
expired, so from a clean or still-counting breaker state this is an
increase of exactly 1 over the start-of-tick count; see the counterexample
for the expired-cooldown corner the original claim misses). -/
theorem C6_failed_close_aborts_flip (s : Settings) (cb : Option CBState)
    (v : VaultRow) (env : TickEnv) (r : TradeResult)
    (hb : (is_circuit_broken cb env.now).1 = false)
    (hs : env.strategy_loaded = true)
    (hd : env.signal.direction ≠ 0)
    (hcur : net_position_direction env.positions ≠ 0)
    (hflip : env.signal.direction ≠ net_position_direction env.positions)
    (hr : close_positions s env.signal.asset env.positions env.signal.current_price
        v.address env.market_address env.gas_price env.close_chain env.now = some r)
    (hfail : r.success = false) :
    (process_vault s cb v env).1 =
      [Event.signalLogged env.signal.direction, Event.closeAttempted,
       Event.tradeLogged (log_trade v.address v.strategy_id env.prior_trades r)]
    ∧ (log_trade v.address v.strategy_id env.prior_trades r).result = "failed"
    ∧ Event.openAttempted ∉ (process_vault s cb v env).1
    ∧ failuresOf (process_vault s cb v env).2 =
        failuresOf (is_circuit_broken cb env.now).2 + 1 := by
  have hpeq : process_vault s cb v env =
      ([Event.signalLogged env.signal.direction, Event.closeAttempted,
        Event.tradeLogged (log_trade v.address v.strategy_id env.prior_trades r)],
       record_trade_result (is_circuit_broken cb env.now).2 false env.now) := by
    simp [process_vault, hb, hs, hd, hcur, hflip, hr, hfail]
  refine ⟨by rw [hpeq], ?_, ?_, ?_⟩
  · simp [log_trade, hfail]
  · rw [hpeq]
    simp
  · rw [hpeq]
    exact failuresOf_record_failure _ _

/-- Witness for C6 (amended): from a clean breaker, a SHORT signal against
an existing LONG with a reverting close submission aborts the open and ends
with exactly one recorded failure. -/
theorem C6_failed_close_aborts_flip_witness :
    Event.openAttempted ∉ (process_vault sampleSettings none sampleVault (flipEnvAt 0)).1
    ∧ failuresOf (process_vault sampleSettings none sampleVault (flipEnvAt 0)).2 =
      failuresOf (is_circuit_broken none (flipEnvAt 0).now).2 + 1 := by
  have hr : close_positions sampleSettings ((flipEnvAt 0).signal.asset)
      ((flipEnvAt 0).positions) ((flipEnvAt 0).signal.current_price)
      sampleVault.address ((flipEnvAt 0).market_address) ((flipEnvAt 0).gas_price)
      ((flipEnvAt 0).close_chain) ((flipEnvAt 0).now) =
      some { success := false, tx_hash := none,
             error := some "Transaction reverted: 0xclose", gas_used := 0,
             timestamp := 0, direction := 0, asset := "BTC", size := 0,
             entry_price := 100 } := by
    norm_num [close_positions, flipEnvAt, baseEnvAt, longPosition, shortSignal,
      longSignal, build_close_order_calldata]
  have h := C6_failed_close_aborts_flip sampleSettings none sampleVault (flipEnvAt 0)
    { success := false, tx_hash := none,
      error := some "Transaction reverted: 0xclose", gas_used := 0,
      timestamp := 0, direction := 0, asset := "BTC", size := 0,
      entry_price := 100 }
    (by norm_num [is_circuit_broken])
    rfl
    (by norm_num [flipEnvAt, baseEnvAt, shortSignal, longSignal])
    (by norm_num [flipEnvAt, baseEnvAt, net_position_direction, longPosition])
    (by norm_num [flipEnvAt, baseEnvAt, shortSignal, longSignal,
      net_position_direction, longPosition])
    hr
    rfl
  exact ⟨h.2.2.1, h.2.2.2⟩

/-- Counterexample for C6 as stated: with a breaker entry of 5 failures
whose 3600 s cooldown has expired (tripped at 0, tick at 7200), the
circuit check clears the entry before processing, so a flip tick whose
close fails ends with `consecutive_failures = 1` — not the start-of-tick
count plus one (5 + 1 = 6): the counter does not "increase by exactly 1"
across such a tick. -/
theorem C6_counterexample :
    failuresOf (some { failures := 5, tripped_at := some 0 }) = 5
    ∧ (is_circuit_broken (some { failures := 5, tripped_at := some 0 })
        (flipEnvAt 7200).now).1 = false
    ∧ (flipEnvAt 7200).signal.direction = -1
    ∧ net_position_direction ((flipEnvAt 7200).positions) = 1
    ∧ (close_positions sampleSettings ((flipEnvAt 7200).signal.asset)
        ((flipEnvAt 7200).positions) ((flipEnvAt 7200).signal.current_price)
        sampleVault.address ((flipEnvAt 7200).market_address)
        ((flipEnvAt 7200).gas_price) ((flipEnvAt 7200).close_chain)
        ((flipEnvAt 7200).now)).map TradeResult.success = some false
    ∧ failuresOf (process_vault sampleSettings
        (some { failures := 5, tripped_at := some 0 }) sampleVault
        (flipEnvAt 7200)).2 = 1
    ∧ (1 : ℕ) ≠ 5 + 1 := by
  have hr : close_positions sampleSettings ((flipEnvAt 7200).signal.asset)
      ((flipEnvAt 7200).positions) ((flipEnvAt 7200).signal.current_price)
      sampleVault.address ((flipEnvAt 7200).market_address)
      ((flipEnvAt 7200).gas_price) ((flipEnvAt 7200).close_chain)
      ((flipEnvAt 7200).now) =
      some { success := false, tx_hash := none,
             error := some "Transaction reverted: 0xclose", gas_used := 0,
             timestamp := 7200, direction := 0, asset := "BTC", size := 0,
             entry_price := 100 } := by
    norm_num [close_positions, flipEnvAt, baseEnvAt, longPosition, shortSignal,
      longSignal, build_close_order_calldata]
  have hbb : is_circuit_broken (some { failures := 5, tripped_at := some 0 })
      ((flipEnvAt 7200).now) = (false, none) := by
    norm_num [is_circuit_broken, flipEnvAt, baseEnvAt,
      CIRCUIT_BREAKER_THRESHOLD, CIRCUIT_BREAKER_COOLDOWN]
  have hdir : (flipEnvAt 7200).signal.direction = -1 := rfl
  have hpos : net_position_direction ((flipEnvAt 7200).positions) = 1 := by
    norm_num [flipEnvAt, baseEnvAt, net_position_direction, longPosition]
  refine ⟨rfl, by rw [hbb], hdir, hpos, by rw [hr]; rfl, ?_, by norm_num⟩
  have hpeq : process_vault sampleSettings
      (some { failures := 5, tripped_at := some 0 }) sampleVault (flipEnvAt 7200) =
      ([Event.signalLogged (flipEnvAt 7200).signal.direction, Event.closeAttempted,
        Event.tradeLogged (log_trade sampleVault.address sampleVault.strategy_id
          ((flipEnvAt 7200).prior_trades)
          { success := false, tx_hash := none,
            error := some "Transaction reverted: 0xclose", gas_used := 0,
            timestamp := 7200, direction := 0, asset := "BTC", size := 0,
            entry_price := 100 })],
       record_trade_result none false ((flipEnvAt 7200).now)) := by
    have hb1 : (is_circuit_broken (some { failures := 5, tripped_at := some 0 })
        ((flipEnvAt 7200).now)).1 = false := by rw [hbb]
    have hb2 : (is_circuit_broken (some { failures := 5, tripped_at := some 0 })
        ((flipEnvAt 7200).now)).2 = none := by rw [hbb]
    have hsl : (flipEnvAt 7200).strategy_loaded = true := rfl
    simp [process_vault, hb1, hb2, hsl, hdir, hpos, hr]
  rw [hpeq]
  norm_num [record_trade_result, failuresOf, flipEnvAt, baseEnvAt,
    CIRCUIT_BREAKER_THRESHOLD]
